import Mathlib

/-!
Shallow embedding of `src/clean_playlist.py`.

The script validates M3U/M3U8 playlists: it loads the playlist text,
extracts candidate stream URLs, probes each with streamlink in a thread
pool, and writes back the lines whose stream was found valid.

External effects are abstracted as explicit parameters:
the streamlink probe becomes `probe : String → ProbeOutcome`
(the outcome of `streamlink.streams(url)`: either a dict of stream
names or a raised exception's message), the network/file load becomes a
`LoadOutcome`, and `m3u8.load` becomes `web : String → Option M3U8Playlist`.
Printed diagnostics are returned as string lists where a claim needs them.
-/

/-- Python `str.strip()` on both ends (whitespace per `Char.isWhitespace`,
which covers the space, tab, carriage-return and newline characters that
occur in playlist files). Defined over the character list so that the
kernel can evaluate it. -/
def pyStrip (s : String) : String :=
  String.mk (((s.data.dropWhile Char.isWhitespace).reverse.dropWhile
    Char.isWhitespace).reverse)

/-- Python `s.startswith(pre)`, defined over character lists so that the
kernel can evaluate it. -/
def pyStartsWith (s pre : String) : Bool :=
  List.isPrefixOf pre.data s.data

/-- Whether a character occurs in a string (Python `c in s`). -/
def strContains (s : String) (c : Char) : Bool :=
  s.data.contains c

/-- Python `s == ''` (empty test), kernel-evaluable. -/
def strIsEmpty (s : String) : Bool :=
  s.data.isEmpty

/-- Outcome of a `streamlink.streams(url)` call: `ok streams` is a normal
return with the dict's keys, `exc msg` is a raised exception rendered as
its message text. -/
inductive ProbeOutcome where
  | ok (streams : List String)
  | exc (msg : String)
deriving DecidableEq

/-- Embedding of `validate_stream` (src/clean_playlist.py lines 9-18).
Returns the pair (returned value, printed lines): on a normal probe
return it yields `url` when the key "best" is present and `None`
(`none`) otherwise, printing nothing; on an exception it prints the
error line and returns `None`. -/
def validate_stream (probe : String → ProbeOutcome) (url : String) :
    Option String × List String :=
  match probe url with
  | ProbeOutcome.ok streams =>
      (if streams.contains "best" then some url else none, [])
  | ProbeOutcome.exc msg =>
      (none, ["Error validating stream " ++ url ++ ": " ++ msg])

/-- Embedding of `validate_streams_in_batches` (lines 75-88).
The code submits one future per list element (`executor.submit` inside a
dict comprehension keyed by the future, so duplicates each get their own
future), then collects `future.result()` over `as_completed` and appends
it when truthy (`if result:` — so `None` and the empty string are both
skipped). `as_completed` yields futures in nondeterministic completion
order; the embedding fixes submission order, and every theorem proved
about it is order-insensitive (membership and multiplicity). The
`batch_size` parameter of the source is unused by its body
(`max_workers` is the literal 10) and is omitted. -/
def validate_streams_in_batches (probe : String → ProbeOutcome)
    (urls : List String) : List String :=
  urls.filterMap (fun url =>
    match (validate_stream probe url).1 with
    | some result => if strIsEmpty result then none else some result
    | none => none)

/-- Python truthiness of the probe's returned value for one url, as used
by the `if result:` test in `validate_streams_in_batches`. -/
def probeAccepts (probe : String → ProbeOutcome) (url : String) : Bool :=
  match (validate_stream probe url).1 with
  | some result => !(strIsEmpty result)
  | none => false

/-- Directory part of a URL as computed by standard relative resolution:
everything up to and including the last slash (the whole string plus a
slash when there is none). Matches `url.rsplit('/', 1)[0] + '/'`. -/
def dirOf (u : String) : String :=
  if strContains u '/' then
    String.mk ((u.data.reverse.dropWhile (fun c => c ≠ '/')).reverse)
  else u ++ "/"

/-- Modelled from the spec: `urllib.parse.urljoin` is Python standard
library code, absent from src/. The spec describes it as standard
relative-URL resolution: absolute URLs pass through unchanged; relative
paths are joined to the base's directory. An empty base leaves the path
unchanged (the local-file case of `validate_m3u` passes base ""). Root-
relative and query-only references are outside what the claims touch. -/
def urljoin (base rel : String) : String :=
  if pyStartsWith rel "http://" || pyStartsWith rel "https://" then rel
  else if strIsEmpty base then rel
  else dirOf base ++ rel

/-- Embedding of `parse_m3u_playlist` (lines 33-39): strip each line,
keep it as a candidate when non-empty and not starting with '#', and
resolve it against the base URL. -/
def parse_m3u_playlist (lines : List String) (base_url : String) : List String :=
  lines.filterMap (fun line =>
    let s := pyStrip line
    if !(strIsEmpty s) && !(pyStartsWith s "#") then some (urljoin base_url s)
    else none)

/-- The test `save_valid_playlist` applies to decide whether a line is
written: lines that are blank after `strip()` or whose RAW text starts
with '#' are always written; otherwise the line is written exactly when
its stripped text is a member of `valid_urls`. -/
def keepLine (valid_urls : List String) (line : String) : Bool :=
  if strIsEmpty (pyStrip line) || pyStartsWith line "#" then true
  else valid_urls.contains (pyStrip line)

/-- A line that `save_valid_playlist` subjects to the validity test:
non-blank after strip and raw text not starting with '#'. (Note the
source checks `line.startswith('#')` on the unstripped line here, unlike
the parser which strips first.) -/
def candidateAtWrite (line : String) : Bool :=
  !(strIsEmpty (pyStrip line)) && !(pyStartsWith line "#")

/-- Embedding of the line selection of `save_valid_playlist` (lines
63-73): the sequence of `line` values handed to `file.write` (each is
actually written as `f"{line}\n"`, see `saveContent`). -/
def save_valid_playlist (input_lines valid_urls : List String) : List String :=
  input_lines.filter (keepLine valid_urls)

/-- The exact character content `save_valid_playlist` writes to the
output file: each kept line followed by one added newline. -/
def saveContent (input_lines valid_urls : List String) : String :=
  String.join ((save_valid_playlist input_lines valid_urls).map (fun l => l ++ "\n"))

/-- The `Invalid stream:` diagnostics `save_valid_playlist` prints, one
per dropped line, naming the stripped URL. -/
def saveDiagnostics (input_lines valid_urls : List String) : List String :=
  (input_lines.filter (fun l => !keepLine valid_urls l)).map
    (fun l => "Invalid stream: " ++ pyStrip l)

/-- Outcome of obtaining the playlist text: a normal read yielding the
line list, or a failure (network error / unreadable file) with message. -/
inductive LoadOutcome where
  | ok (lines : List String)
  | err (msg : String)
deriving DecidableEq

/-- The `url_or_path.startswith(('http://', 'https://'))` test. -/
def isHttpUrl (s : String) : Bool :=
  pyStartsWith s "http://" || pyStartsWith s "https://"

/-- Embedding of `load_m3u_playlist` (lines 20-31). On the HTTP branch a
request failure is caught, printed, and an empty list returned; on the
local-file branch `open`/read errors are NOT caught here and propagate
to the caller, modelled as `Except.error`. -/
def load_m3u_playlist (source : String) (outcome : LoadOutcome) :
    Except String (List String) :=
  if isHttpUrl source then
    match outcome with
    | LoadOutcome.ok lines => Except.ok lines
    | LoadOutcome.err _ => Except.ok []
  else
    match outcome with
    | LoadOutcome.ok lines => Except.ok lines
    | LoadOutcome.err msg => Except.error msg

/-- Embedding of `validate_m3u` (lines 90-104): load, derive the base
URL (the source itself for HTTP sources, the empty string otherwise),
parse candidates, and validate them in batches. Its `try/except` catches
any exception escaping the load (the local-file branch) and returns the
pair of empty lists. -/
def validate_m3u (source : String) (outcome : LoadOutcome)
    (probe : String → ProbeOutcome) : List String × List String :=
  match load_m3u_playlist source outcome with
  | Except.error _ => ([], [])
  | Except.ok lines =>
      let base_url := if isHttpUrl source then source else ""
      let urls := parse_m3u_playlist lines base_url
      (lines, validate_streams_in_batches probe urls)

/-- Result of `m3u8.load(url)`: the loaded playlist's segment URIs and
sub-playlist URIs, in declaration order. `None`/empty attribute values
are modelled as the empty string (falsy under the source's
`if segment.uri:` / `if playlist.uri:` guards). -/
structure M3U8Playlist where
  segments : List String
  playlists : List String
deriving DecidableEq

/-- Embedding of `extract_and_validate_playlist` (lines 41-61). The
source recurses into every referenced sub-playlist with NO visited set
and NO depth bound; the only bound is Python's interpreter recursion
limit, whose `RecursionError` (like any load failure) is swallowed by
the `except Exception` and contributes nothing. `fuel` models the
remaining interpreter recursion depth; `web` abstracts `m3u8.load`
(`none` = the load raised). The function returns the final value of the
mutated `valid_urls` accumulator. -/
def extract_and_validate_playlist (web : String → Option M3U8Playlist) :
    Nat → String → List String → List String
  | 0, _, valid_urls => valid_urls
  | fuel + 1, url, valid_urls =>
    match web url with
    | none => valid_urls
    | some playlist =>
      let base_url := dirOf url
      let withSegments := valid_urls ++ playlist.segments.filterMap
        (fun s => if strIsEmpty s then none else some (urljoin base_url s))
      playlist.playlists.foldl
        (fun acc uri =>
          if strIsEmpty uri then acc
          else extract_and_validate_playlist web fuel (urljoin base_url uri) acc)
        withSegments

/-- A one-playlist web whose single playlist lists one media segment and
references itself as its own sub-playlist: `m3u8.load` of the fixed URL
yields segment `s.ts` and sub-playlist reference `p.m3u8`, which
resolves back to the same URL. -/
def selfLoopWeb : String → Option M3U8Playlist := fun u =>
  if u = "http://h/p.m3u8" then some ⟨["s.ts"], ["p.m3u8"]⟩ else none


/-- A candidate line in the spec's sense (and the parser's): non-blank
after strip and whose STRIPPED text does not start with '#'. -/
def candidateLine (line : String) : Bool :=
  !(strIsEmpty (pyStrip line)) && !(pyStartsWith (pyStrip line) "#")

/-- A probe outcome that `validate_stream` maps to a negative result: a
raised exception, or a normal return without a "best" stream. -/
def isFailure (o : ProbeOutcome) : Bool :=
  match o with
  | ProbeOutcome.ok streams => !(streams.contains "best")
  | ProbeOutcome.exc _ => true

/-- The value `validate_stream` returns is always `None` or the probed
URL itself, unmodified. -/
theorem validate_stream_fst (probe : String → ProbeOutcome) (url : String) :
    (validate_stream probe url).1 = none ∨
      (validate_stream probe url).1 = some url := by
  unfold validate_stream
  cases probe url with
  | ok streams =>
      by_cases h : streams.contains "best" = true
      · right
        show (if streams.contains "best" = true then some url else none) = some url
        rw [if_pos h]
      · left
        show (if streams.contains "best" = true then some url else none) = none
        rw [if_neg h]
  | exc msg => left; rfl

/-- The write-time keep test is: not a write-time candidate, or stripped
text in the valid list. -/
theorem keepLine_eq (valid_urls : List String) (line : String) :
    keepLine valid_urls line =
      (!(candidateAtWrite line) || valid_urls.contains (pyStrip line)) := by
  unfold keepLine candidateAtWrite
  by_cases h1 : strIsEmpty (pyStrip line) = true <;>
    by_cases h2 : pyStartsWith line "#" = true <;> simp [h1, h2]

/-- C1 as stated is false: `save_valid_playlist` does not test the
candidate's URL resolved against the base URL — it tests the raw
stripped line text. With input line "foo", base "http://h/" and a valid
set containing exactly the resolved URL "http://h/foo", the claim keeps
the line but the code drops it (the output differs from the claimed
filter at this input). -/
theorem claimC1_counterexample :
    ¬ (∀ (input_lines valid_urls : List String) (base_url : String),
      save_valid_playlist input_lines valid_urls =
        input_lines.filter (fun l =>
          !(candidateLine l) ||
            valid_urls.contains (urljoin base_url (pyStrip l)))) := by
  intro h
  have h1 := h ["foo"] ["http://h/foo"] "http://h/"
  exact absurd h1 (by decide)

/-- C1 amended: the playlist written by `save_valid_playlist` contains
exactly those write-time candidate lines (non-blank, raw text not
starting with '#') whose STRIPPED TEXT is in the valid set; no
resolution against a base URL happens at write time. -/
theorem claimC1_theorem (input_lines valid_urls : List String) :
    (save_valid_playlist input_lines valid_urls).filter candidateAtWrite =
      input_lines.filter
        (fun l => candidateAtWrite l && valid_urls.contains (pyStrip l)) := by
  unfold save_valid_playlist
  rw [List.filter_filter]
  apply List.filter_congr
  intro l _
  rw [keepLine_eq]
  have htauto : ∀ (a b : Bool), (a && (!a || b)) = (a && b) := by decide
  exact htauto (candidateAtWrite l) (valid_urls.contains (pyStrip l))

/-- C4: the sequence of lines `save_valid_playlist` keeps is a
subsequence of the input line sequence — stable filtering, no
reordering, and every surviving line is an input line verbatim. -/
theorem claimC4_theorem (input_lines valid_urls : List String) :
    List.Sublist (save_valid_playlist input_lines valid_urls) input_lines :=
  List.filter_sublist input_lines

/-- C2 evaluated at the failing input: `extract_and_validate_playlist`
has no visited set and no depth bound, so on a playlist that references
itself the same playlist URL is reprocessed once per remaining
interpreter recursion level and its segment candidate is contributed
once per visit — with recursion budget 1 the cycle endpoint's candidate
appears once, with budget 3 it appears three times, growing without
bound instead of being visited at most once. -/
theorem claimC2_theorem :
    extract_and_validate_playlist selfLoopWeb 1 "http://h/p.m3u8" [] =
      ["http://h/s.ts"] ∧
    extract_and_validate_playlist selfLoopWeb 3 "http://h/p.m3u8" [] =
      ["http://h/s.ts", "http://h/s.ts", "http://h/s.ts"] := by
  exact ⟨by decide, by decide⟩

/-- C3 as stated is false: the engine does not return one result per
submitted unique URL. A batch with the single URL "http://u" whose probe
raises yields zero results (failures are dropped by `if result:`), not
one. -/
theorem claimC3_counterexample :
    ¬ (∀ (probe : String → ProbeOutcome) (urls : List String),
      ∀ u ∈ urls, (validate_streams_in_batches probe urls).count u = 1) := by
  intro h
  have h1 := h (fun _ => ProbeOutcome.exc "boom") ["http://u"] "http://u"
    (by decide)
  exact absurd h1 (by decide)

/-- C3 amended: `validate_streams_in_batches` performs no
deduplication — every occurrence of every URL is submitted and probed —
and returns exactly the sub-list of occurrences whose probe succeeded
(url returned and truthy); failed probes contribute no result. -/
theorem claimC3_theorem (probe : String → ProbeOutcome) (urls : List String) :
    validate_streams_in_batches probe urls = urls.filter (probeAccepts probe) := by
  have hhead : ∀ (u : String),
      (match (validate_stream probe u).1 with
        | some result => if strIsEmpty result = true then none else some result
        | none => none) =
        (if probeAccepts probe u then some u else none) := by
    intro u
    unfold probeAccepts
    rcases validate_stream_fst probe u with h | h <;> rw [h]
    · rfl
    · dsimp only
      cases he : strIsEmpty u <;> rfl
  induction urls with
  | nil => rfl
  | cons u rest ih =>
      unfold validate_streams_in_batches at ih ⊢
      rw [List.filterMap_cons, List.filter_cons, hhead u, ih]
      by_cases hp : probeAccepts probe u = true
      · rw [if_pos hp, if_pos hp]
      · rw [if_neg hp, if_neg hp]

/-- C5 as stated is false for input loaded from a local file: a file
whose content is "http://a\n" is read by `readlines()` as the single
line "http://a\n" (terminator kept); with its only candidate already in
the valid set, `save_valid_playlist` writes `f"{line}\n"`, producing
"http://a\n\n" — an extra blank line, not a playlist identical to the
input. -/
theorem claimC5_counterexample :
    saveContent ["http://a\n"] ["http://a"] = "http://a\n\n" ∧
      "http://a\n\n" ≠ "http://a\n" := by
  exact ⟨by decide, by decide⟩

/-- C5 amended: when every non-blank line not starting with '#' has its
stripped text in the valid set, `save_valid_playlist` keeps every input
line unchanged and in order, and the written file is the input lines
each terminated by exactly one added newline. This is identity of
content for the URL path (`splitlines` strips terminators); on the
local-file path (`readlines` keeps each line's own newline) the added
newline doubles every line break, so the written file is not identical
to the source file. -/
theorem claimC5_theorem (input_lines valid_urls : List String)
    (h : ∀ l ∈ input_lines, candidateAtWrite l = true →
      valid_urls.contains (pyStrip l) = true) :
    save_valid_playlist input_lines valid_urls = input_lines ∧
      saveContent input_lines valid_urls =
        String.join (input_lines.map (fun l => l ++ "\n")) := by
  have hall : ∀ l ∈ input_lines, keepLine valid_urls l = true := by
    intro l hl
    rw [keepLine_eq]
    by_cases hc : candidateAtWrite l = true
    · rw [h l hl hc, Bool.or_true]
    · have hc' : candidateAtWrite l = false := by
        revert hc; cases candidateAtWrite l <;> simp
      rw [hc']; rfl
  have h1 : save_valid_playlist input_lines valid_urls = input_lines :=
    List.filter_eq_self.mpr hall
  exact ⟨h1, by unfold saveContent; rw [h1]⟩

/-- Witness for C5 at a concrete input: both lines of the playlist
`#EXTM3U` / `http://a` survive when `http://a` is valid. -/
theorem claimC5_witness :
    (∀ l ∈ ["#EXTM3U", "http://a"], candidateAtWrite l = true →
      (["http://a"] : List String).contains (pyStrip l) = true) ∧
      save_valid_playlist ["#EXTM3U", "http://a"] ["http://a"] =
        ["#EXTM3U", "http://a"] :=
  ⟨by decide, (claimC5_theorem _ _ (by decide)).1⟩

/-- C6: a failing load yields the empty result pair. On an HTTP source
the request error is caught inside `load_m3u_playlist`, which returns no
lines, so nothing is parsed or validated; on a local file the `open`
error propagates to `validate_m3u`, whose handler returns the pair of
empty lists. Either way the caller receives no lines and no valid
streams, and no exception escapes. -/
theorem claimC6_theorem (source msg : String) (probe : String → ProbeOutcome) :
    validate_m3u source (LoadOutcome.err msg) probe = ([], []) := by
  unfold validate_m3u load_m3u_playlist
  by_cases h : isHttpUrl source = true
  · rw [if_pos h]; rfl
  · rw [if_neg h]

/-- Witness for C6 at a concrete input: loading the local path
"list.m3u" fails with "No such file" and the run returns no lines and no
valid streams. -/
theorem claimC6_witness :
    validate_m3u "list.m3u" (LoadOutcome.err "No such file")
      (fun _ => ProbeOutcome.ok ["best"]) = ([], []) :=
  claimC6_theorem "list.m3u" "No such file" (fun _ => ProbeOutcome.ok ["best"])

/-- C7 as stated is false: a probe failure is not always captured with
the underlying reason. When `streamlink.streams` returns without a
"best" entry (the no-stream condition), `validate_stream` returns `None`
and emits no diagnostic at all, so no reason text is carried anywhere —
and even in the exception case the returned value is the bare `None`,
the reason existing only as a printed line. -/
theorem claimC7_counterexample :
    ¬ (∀ (probe : String → ProbeOutcome) (url : String),
      isFailure (probe url) = true →
        (validate_stream probe url).1 = none ∧
          (validate_stream probe url).2 ≠ []) := by
  intro h
  have h1 := h (fun _ => ProbeOutcome.ok []) "http://u" (by decide)
  exact h1.2 (by decide)

/-- C7 amended: `validate_stream` never raises — every probe failure
(exception or no-stream condition) yields the negative result `None`,
carrying no reason; only the exception case prints the error text as a
diagnostic; and a failing URL contributes nothing to the batch, which
continues with the remaining URLs. -/
theorem claimC7_theorem (probe : String → ProbeOutcome) (url : String)
    (urls : List String) (h : isFailure (probe url) = true) :
    (validate_stream probe url).1 = none ∧
      validate_streams_in_batches probe (url :: urls) =
        validate_streams_in_batches probe urls := by
  have h1 : (validate_stream probe url).1 = none := by
    cases hp : probe url with
    | ok streams =>
        have hb : streams.contains "best" = false := by
          unfold isFailure at h; rw [hp] at h
          dsimp only at h
          cases hc : streams.contains "best"
          · rfl
          · rw [hc] at h; simp at h
        unfold validate_stream; rw [hp]
        dsimp only
        rw [hb]; rfl
    | exc msg => unfold validate_stream; rw [hp]
  refine ⟨h1, ?_⟩
  unfold validate_streams_in_batches
  rw [List.filterMap_cons, h1]

/-- Witness for C7 at a concrete input: a probe that raises "boom" on
every URL makes `validate_stream` return `None` for "http://u". -/
theorem claimC7_witness :
    isFailure ((fun _ => ProbeOutcome.exc "boom") "http://u") = true ∧
      (validate_stream (fun _ => ProbeOutcome.exc "boom") "http://u").1 = none :=
  ⟨by decide,
    (claimC7_theorem (fun _ => ProbeOutcome.exc "boom") "http://u" [] (by decide)).1⟩

/-- C9's exception clause is false: a directive line that itself
declares a nested-playlist reference (an HLS tag carrying a URI
attribute) contributes no candidate at all — `parse_m3u_playlist` skips
every line whose stripped text starts with '#', extracting nothing from
it, so the tag's associated URI "http://h/sub.m3u8" is not among the
candidates. -/
theorem claimC9_counterexample :
    parse_m3u_playlist ["#EXT-X-STREAM-INF:BANDWIDTH=1000,URI=\"sub.m3u8\""]
        "http://h/" = [] ∧
      "http://h/sub.m3u8" ∉
        parse_m3u_playlist ["#EXT-X-STREAM-INF:BANDWIDTH=1000,URI=\"sub.m3u8\""]
          "http://h/" := by
  exact ⟨by decide, by decide⟩

/-- C9 amended: the parser never treats a directive line (stripped text
starting with '#') as a candidate, with NO exception — removing all
directive lines from the input leaves the extracted candidate list
unchanged, so no URI is ever extracted from a directive line, nested
reference tags included. -/
theorem claimC9_theorem (lines : List String) (base_url : String) :
    parse_m3u_playlist lines base_url =
      parse_m3u_playlist
        (lines.filter (fun l => !(pyStartsWith (pyStrip l) "#"))) base_url := by
  induction lines with
  | nil => rfl
  | cons l rest ih =>
      unfold parse_m3u_playlist at ih ⊢
      rw [List.filter_cons]
      cases hd : pyStartsWith (pyStrip l) "#" <;>
        simp [hd, List.filterMap_cons, List.filter_cons] at ih ⊢ <;>
        rw [ih]

/-- C10: every URL the validation engine returns is an element of the
submitted URL list, string-identical to the submitted URL, and was
returned unchanged by a positive `validate_stream` probe — so the
valid-stream set is a subset of the candidate set. -/
theorem claimC10_theorem (probe : String → ProbeOutcome)
    (urls : List String) (u : String)
    (hu : u ∈ validate_streams_in_batches probe urls) :
    u ∈ urls ∧ (validate_stream probe u).1 = some u := by
  unfold validate_streams_in_batches at hu
  rw [List.mem_filterMap] at hu
  obtain ⟨a, ha, hfa⟩ := hu
  rcases validate_stream_fst probe a with h | h <;> rw [h] at hfa
  · exact absurd hfa (by simp)
  · dsimp only at hfa
    by_cases he : strIsEmpty a = true
    · rw [if_pos he] at hfa
      exact absurd hfa (by simp)
    · rw [if_neg he] at hfa
      have hau : a = u := Option.some.inj hfa
      subst hau
      exact ⟨ha, h⟩

/-- Witness for C10 at a concrete input: with a probe that always finds
a "best" stream, the singleton batch ["http://a"] returns "http://a",
which is in the input list and was returned unchanged. -/
theorem claimC10_witness :
    "http://a" ∈ validate_streams_in_batches
        (fun _ => ProbeOutcome.ok ["best"]) ["http://a"] ∧
      "http://a" ∈ ["http://a"] ∧
      (validate_stream (fun _ => ProbeOutcome.ok ["best"]) "http://a").1 =
        some "http://a" := by
  have hmem : "http://a" ∈ validate_streams_in_batches
      (fun _ => ProbeOutcome.ok ["best"]) ["http://a"] := by decide
  have h := claimC10_theorem (fun _ => ProbeOutcome.ok ["best"]) ["http://a"]
    "http://a" hmem
  exact ⟨hmem, h.1, h.2⟩
